import Mathlib

/-!
# Verification of `plot_range.py` (truck range vs fuel mass/volume ratios)

A shallow embedding of the computational core of the script: the three
reference tables are modelled as association-list dataframes over exact
rationals, the mileage model and the range-table builder are translated
function by function, and fatal `KeyError` propagation is modelled with
`Except String`.  The recoverable branch of `get_mpgde` (its
`try/except KeyError`) becomes an `Option`.
-/

namespace PlotRange

/-- A tabular dataset keyed by row name: each row is an association list from
column name to numeric value.  This models the pandas dataframes the script
loads (`truck_info`, `truck_fuel_info`, `fuel_info`), with the numeric entries
idealised as exact rationals. -/
structure DataFrame where
  rows : List (String × List (String × ℚ))
deriving DecidableEq

/-- Lookup of a column value inside one row, first match wins (pandas returns
the first matching label; `none` models the `KeyError` on a missing column). -/
def lookupCol (col : String) : List (String × ℚ) → Option ℚ
  | [] => none
  | (c, v) :: rest => if c = col then some v else lookupCol col rest

/-- Lookup of a row by its index label; `none` models the `KeyError` on a
missing row. -/
def lookupRow (row : String) : List (String × List (String × ℚ)) → Option (List (String × ℚ))
  | [] => none
  | (r, cols) :: rest => if r = row then some cols else lookupRow row rest

/-- `df.loc[row, col]`: `some` value when both the row label and the column
label are present, `none` in exactly the cases where pandas raises `KeyError`
(missing row label or missing column label). -/
def DataFrame.loc (df : DataFrame) (row col : String) : Option ℚ :=
  (lookupRow row df.rows).bind (fun cols => lookupCol col cols)

/-- `df.index`: the list of row labels, in order. -/
def DataFrame.index (df : DataFrame) : List String :=
  df.rows.map Prod.fst

/-- The script constant `GALLONS_PER_M3 = 264.172` (gallons per cubic meter),
as an exact rational. -/
def GALLONS_PER_M3 : ℚ := 264172 / 1000

/-- `get_mpgde(fuel, truck_fuel_info_df)`: reads the diesel-equivalent miles
per gallon for `fuel` from the efficiency table.  The whole `.loc` access sits
in a `try/except KeyError` that prints and returns `None`; both `KeyError`
cases (fuel row absent, `MPGDE` column absent) therefore yield `none`. -/
def get_mpgde (fuel : String) (truck_fuel_info_df : DataFrame) : Option ℚ :=
  truck_fuel_info_df.loc fuel "MPGDE"

/-- `calculate_miles_per_fuel(mpdge_fuel, energy_density_fuel,
mass_density_fuel, energy_density_diesel, mass_density_diesel)`: returns the
pair (miles per kg of fuel, miles per cubic meter of fuel), translated line by
line from the source (the parameter spelling `mpdge_fuel` is the source's). -/
def calculate_miles_per_fuel (mpdge_fuel energy_density_fuel mass_density_fuel
    energy_density_diesel mass_density_diesel : ℚ) : ℚ × ℚ :=
  let miles_per_kg_diesel := mpdge_fuel / (mass_density_diesel / GALLONS_PER_M3)
  let miles_per_kg_fuel := miles_per_kg_diesel * energy_density_fuel / energy_density_diesel
  let miles_per_m3_fuel := miles_per_kg_fuel * mass_density_fuel
  (miles_per_kg_fuel, miles_per_m3_fuel)

/-- One row of a derived range table: the five columns
`Truck Range (miles)`, `Fuel Mass (kg)`, `Fuel Mass (% of GVW)`,
`Fuel Volume (m^3)`, `Fuel Volume (% of Dry Van Volume)`. -/
structure RangeRow where
  truck_range : ℚ
  fuel_mass : ℚ
  fuel_mass_percentage : ℚ
  fuel_volume : ℚ
  fuel_volume_percentage : ℚ
deriving DecidableEq

/-- `range_values = list(range(100, 1001, 100))`. -/
def range_values : List ℚ :=
  [100, 200, 300, 400, 500, 600, 700, 800, 900, 1000]

/-- The loop body of the range ladder: required fuel mass and volume for one
target range, and both expressed as percentages of the truck capacities,
exactly as computed at lines 138-143 of the source. -/
def make_range_row (miles_per_kg_fuel miles_per_m3_fuel max_gvw dry_van_volume
    truck_range : ℚ) : RangeRow :=
  let fuel_mass := truck_range / miles_per_kg_fuel
  let fuel_volume := truck_range / miles_per_m3_fuel
  let fuel_mass_percentage := (fuel_mass / max_gvw) * 100
  let fuel_volume_percentage := (fuel_volume / dry_van_volume) * 100
  ⟨truck_range, fuel_mass, fuel_mass_percentage, fuel_volume, fuel_volume_percentage⟩

/-- The body of the `for fuel in fuel_info_df.index` loop: `.ok none` models
the `continue` when `get_mpgde` yields nothing; `.error` models an uncaught
`KeyError` from the four property lookups; `.ok (some tbl)` is the finished
table for this fuel. -/
def process_fuel (truck_fuel_info_df fuel_info_df : DataFrame)
    (max_gvw dry_van_volume : ℚ) (fuel : String) :
    Except String (Option (List RangeRow)) :=
  match get_mpgde fuel truck_fuel_info_df with
  | none => .ok none
  | some mpgde_fuel =>
    match fuel_info_df.loc fuel "Energy Density (MJ / kg)" with
    | none => .error "KeyError: Energy Density (MJ / kg)"
    | some energy_density_fuel =>
      match fuel_info_df.loc fuel "Mass Density (kg / m^3)" with
      | none => .error "KeyError: Mass Density (kg / m^3)"
      | some mass_density_fuel =>
        match fuel_info_df.loc "Diesel" "Energy Density (MJ / kg)" with
        | none => .error "KeyError: Diesel Energy Density (MJ / kg)"
        | some energy_density_diesel =>
          match fuel_info_df.loc "Diesel" "Mass Density (kg / m^3)" with
          | none => .error "KeyError: Diesel Mass Density (kg / m^3)"
          | some mass_density_diesel =>
            let mk := calculate_miles_per_fuel mpgde_fuel energy_density_fuel
              mass_density_fuel energy_density_diesel mass_density_diesel
            .ok (some (range_values.map
              (make_range_row mk.1 mk.2 max_gvw dry_van_volume)))

/-- The fuel loop of `create_range_vs_fuel_ratio_dfs`, folded over the index
of the fuel-property table.  A skipped fuel contributes nothing, a processed
fuel contributes its `(name, table)` entry in index order, and an uncaught
`KeyError` aborts the whole loop. -/
def build_tables (truck_fuel_info_df fuel_info_df : DataFrame)
    (max_gvw dry_van_volume : ℚ) :
    List String → Except String (List (String × List RangeRow))
  | [] => .ok []
  | fuel :: rest =>
    match process_fuel truck_fuel_info_df fuel_info_df max_gvw dry_van_volume fuel with
    | .error e => .error e
    | .ok none => build_tables truck_fuel_info_df fuel_info_df max_gvw dry_van_volume rest
    | .ok (some tbl) =>
      match build_tables truck_fuel_info_df fuel_info_df max_gvw dry_van_volume rest with
      | .error e => .error e
      | .ok out => .ok ((fuel, tbl) :: out)

/-- `create_range_vs_fuel_ratio_dfs(truck_info_df, truck_fuel_info_df,
fuel_info_df)`: extracts the two truck capacities (their `KeyError`s are
uncaught, hence `.error`), then runs the fuel loop.  The resulting mapping is
modelled as a list of `(fuel, table)` pairs in insertion order. -/
def create_range_vs_fuel_ratio_dfs (truck_info_df truck_fuel_info_df fuel_info_df : DataFrame) :
    Except String (List (String × List RangeRow)) :=
  match truck_info_df.loc "Max Gross Vehicle Weight (kg)" "Value" with
  | none => .error "KeyError: Max Gross Vehicle Weight (kg)"
  | some max_gvw =>
    match truck_info_df.loc "Dry Van Volume (m^3)" "Value" with
    | none => .error "KeyError: Dry Van Volume (m^3)"
    | some dry_van_volume =>
      build_tables truck_fuel_info_df fuel_info_df max_gvw dry_van_volume
        fuel_info_df.index

/-! ## Helper lemmas about the embedding -/

theorem make_range_row_truck_range (a b c d r : ℚ) :
    (make_range_row a b c d r).truck_range = r := rfl

theorem make_range_row_fuel_mass (a b c d r : ℚ) :
    (make_range_row a b c d r).fuel_mass = r / a := rfl

theorem make_range_row_fuel_mass_percentage (a b c d r : ℚ) :
    (make_range_row a b c d r).fuel_mass_percentage = (r / a / c) * 100 := rfl

theorem make_range_row_fuel_volume (a b c d r : ℚ) :
    (make_range_row a b c d r).fuel_volume = r / b := rfl

theorem make_range_row_fuel_volume_percentage (a b c d r : ℚ) :
    (make_range_row a b c d r).fuel_volume_percentage = (r / b / d) * 100 := rfl

theorem GALLONS_PER_M3_pos : 0 < GALLONS_PER_M3 := by norm_num [GALLONS_PER_M3]

/-- Both outputs of the mileage model are positive whenever all five inputs
are positive. -/
theorem calculate_miles_per_fuel_pos (m eF mF eD mD : ℚ)
    (hm : 0 < m) (heF : 0 < eF) (hmF : 0 < mF) (heD : 0 < eD) (hmD : 0 < mD) :
    0 < (calculate_miles_per_fuel m eF mF eD mD).1 ∧
      0 < (calculate_miles_per_fuel m eF mF eD mD).2 := by
  unfold calculate_miles_per_fuel
  constructor
  · exact div_pos (mul_pos (div_pos hm (div_pos hmD GALLONS_PER_M3_pos)) heF) heD
  · exact mul_pos (div_pos (mul_pos (div_pos hm (div_pos hmD GALLONS_PER_M3_pos)) heF) heD) hmF

/-- Inversion: a fuel that was processed into a table had all five lookups
succeed, and its table is the range ladder mapped through the loop body. -/
theorem process_fuel_ok_some {tf fi : DataFrame} {gvw dv : ℚ} {fuel : String}
    {tbl : List RangeRow}
    (h : process_fuel tf fi gvw dv fuel = .ok (some tbl)) :
    ∃ mpgde eF mF eD mD,
      get_mpgde fuel tf = some mpgde ∧
      fi.loc fuel "Energy Density (MJ / kg)" = some eF ∧
      fi.loc fuel "Mass Density (kg / m^3)" = some mF ∧
      fi.loc "Diesel" "Energy Density (MJ / kg)" = some eD ∧
      fi.loc "Diesel" "Mass Density (kg / m^3)" = some mD ∧
      tbl = range_values.map (make_range_row
        (calculate_miles_per_fuel mpgde eF mF eD mD).1
        (calculate_miles_per_fuel mpgde eF mF eD mD).2 gvw dv) := by
  unfold process_fuel at h
  split at h
  · exact absurd h (by simp)
  next mpgde hm =>
    split at h
    · exact absurd h (by simp)
    next eF hEF =>
      split at h
      · exact absurd h (by simp)
      next mF hMF =>
        split at h
        · exact absurd h (by simp)
        next eD hED =>
          split at h
          · exact absurd h (by simp)
          next mD hMD =>
            refine ⟨mpgde, eF, mF, eD, mD, hm, hEF, hMF, hED, hMD, ?_⟩
            simpa using h.symm

/-- A fuel is skipped (the loop's `continue`) exactly when `get_mpgde` caught
a `KeyError` and returned nothing. -/
theorem process_fuel_ok_none_iff {tf fi : DataFrame} {gvw dv : ℚ} {fuel : String} :
    process_fuel tf fi gvw dv fuel = .ok none ↔ get_mpgde fuel tf = none := by
  constructor
  · intro h
    unfold process_fuel at h
    split at h
    · assumption
    · split at h
      · exact absurd h (by simp)
      · split at h
        · exact absurd h (by simp)
        · split at h
          · exact absurd h (by simp)
          · split at h
            · exact absurd h (by simp)
            · exact absurd h (by simp)
  · intro h
    unfold process_fuel
    rw [h]

/-- Every `(fuel, table)` entry of a successful fuel loop came from a
successful processing of that fuel name. -/
theorem build_tables_mem {tf fi : DataFrame} {gvw dv : ℚ} (fuels : List String)
    (out : List (String × List RangeRow)) (fuel : String) (tbl : List RangeRow)
    (h : build_tables tf fi gvw dv fuels = .ok out) (hmem : (fuel, tbl) ∈ out) :
    process_fuel tf fi gvw dv fuel = .ok (some tbl) := by
  induction fuels generalizing out with
  | nil =>
    rw [build_tables] at h
    cases h
    simp at hmem
  | cons f rest ih =>
    rw [build_tables] at h
    split at h
    · exact absurd h (by simp)
    · exact ih out h hmem
    next tbl0 hproc =>
      split at h
      · exact absurd h (by simp)
      next out0 hrest =>
        cases h
        rcases List.mem_cons.mp hmem with hhd | htl
        · cases hhd
          exact hproc
        · exact ih out0 hrest htl

/-- A fuel whose processing is a skip never contributes a key to the output
of the fuel loop. -/
theorem build_tables_not_mem_key {tf fi : DataFrame} {gvw dv : ℚ} {fuel : String}
    (hskip : process_fuel tf fi gvw dv fuel = .ok none) (fuels : List String)
    (out : List (String × List RangeRow))
    (h : build_tables tf fi gvw dv fuels = .ok out) :
    fuel ∉ out.map Prod.fst := by
  induction fuels generalizing out with
  | nil =>
    rw [build_tables] at h
    cases h
    simp
  | cons f rest ih =>
    rw [build_tables] at h
    split at h
    · exact absurd h (by simp)
    · exact ih out h
    next tbl0 hproc =>
      split at h
      · exact absurd h (by simp)
      next out0 hrest =>
        cases h
        intro hmem
        rcases List.mem_cons.mp hmem with hhd | htl
        · rw [show ((f, tbl0).1 : String) = f from rfl] at hhd
          subst hhd
          rw [hskip] at hproc
          exact absurd hproc (by simp)
        · exact ih out0 hrest htl

/-- A successful fuel loop means no fuel in the list raised an uncaught
`KeyError`: each one was either skipped or fully processed. -/
theorem build_tables_ok_of_mem {tf fi : DataFrame} {gvw dv : ℚ} (fuels : List String)
    (out : List (String × List RangeRow)) (fuel : String)
    (h : build_tables tf fi gvw dv fuels = .ok out) (hmem : fuel ∈ fuels) :
    process_fuel tf fi gvw dv fuel = .ok none ∨
      ∃ tbl, process_fuel tf fi gvw dv fuel = .ok (some tbl) := by
  induction fuels generalizing out with
  | nil => simp at hmem
  | cons f rest ih =>
    rw [build_tables] at h
    split at h
    · exact absurd h (by simp)
    next hproc =>
      rcases List.mem_cons.mp hmem with hhd | htl
      · subst hhd
        exact Or.inl hproc
      · exact ih out h htl
    next tbl0 hproc =>
      rcases List.mem_cons.mp hmem with hhd | htl
      · subst hhd
        exact Or.inr ⟨tbl0, hproc⟩
      · split at h
        · exact absurd h (by simp)
        next out0 hrest => exact ih out0 hrest htl

/-- Inversion of the table builder: a successful run fixes the two truck
capacities and reduces to a successful fuel loop over the fuel index. -/
theorem create_ok_inversion {ti tf fi : DataFrame} {out : List (String × List RangeRow)}
    (h : create_range_vs_fuel_ratio_dfs ti tf fi = .ok out) :
    ∃ gvw dv,
      ti.loc "Max Gross Vehicle Weight (kg)" "Value" = some gvw ∧
      ti.loc "Dry Van Volume (m^3)" "Value" = some dv ∧
      build_tables tf fi gvw dv fi.index = .ok out := by
  unfold create_range_vs_fuel_ratio_dfs at h
  split at h
  · exact absurd h (by simp)
  next gvw hg =>
    split at h
    · exact absurd h (by simp)
    next dv hd => exact ⟨gvw, dv, hg, hd, h⟩

/-- Master inversion: every `(fuel, table)` of a successful builder run comes
from successful capacity and property lookups, and the table is literally the
range ladder mapped through the loop body with the looked-up constants. -/
theorem create_ok_table_shape {ti tf fi : DataFrame}
    {out : List (String × List RangeRow)} {fuel : String} {tbl : List RangeRow}
    (hout : create_range_vs_fuel_ratio_dfs ti tf fi = .ok out)
    (hmem : (fuel, tbl) ∈ out) :
    ∃ gvw dv mpgde eF mF eD mD,
      ti.loc "Max Gross Vehicle Weight (kg)" "Value" = some gvw ∧
      ti.loc "Dry Van Volume (m^3)" "Value" = some dv ∧
      get_mpgde fuel tf = some mpgde ∧
      fi.loc fuel "Energy Density (MJ / kg)" = some eF ∧
      fi.loc fuel "Mass Density (kg / m^3)" = some mF ∧
      fi.loc "Diesel" "Energy Density (MJ / kg)" = some eD ∧
      fi.loc "Diesel" "Mass Density (kg / m^3)" = some mD ∧
      tbl = range_values.map (make_range_row
        (calculate_miles_per_fuel mpgde eF mF eD mD).1
        (calculate_miles_per_fuel mpgde eF mF eD mD).2 gvw dv) := by
  obtain ⟨gvw, dv, hg, hd, hb⟩ := create_ok_inversion hout
  obtain ⟨mpgde, eF, mF, eD, mD, h1, h2, h3, h4, h5, htbl⟩ :=
    process_fuel_ok_some (build_tables_mem _ out fuel tbl hb hmem)
  exact ⟨gvw, dv, mpgde, eF, mF, eD, mD, hg, hd, h1, h2, h3, h4, h5, htbl⟩

/-! ## Concrete sample tables

Small concrete instances of the three reference tables, used to instantiate
the theorems below on explicit data.  `"Diesel"` appears in the fuel-property
table but not in the efficiency table, so it exercises the recoverable skip
branch; fuel `"A"` is fully specified. -/

def sample_truck_info : DataFrame :=
  ⟨[("Max Gross Vehicle Weight (kg)", [("Value", 100)]),
    ("Dry Van Volume (m^3)", [("Value", 50)])]⟩

def sample_truck_fuel_info : DataFrame := ⟨[("A", [("MPGDE", 7)])]⟩

def sample_fuel_info : DataFrame :=
  ⟨[("Diesel", [("Energy Density (MJ / kg)", 4), ("Mass Density (kg / m^3)", 2)]),
    ("A", [("Energy Density (MJ / kg)", 3), ("Mass Density (kg / m^3)", 5)])]⟩

/-- The derived table the builder produces for fuel `"A"` on the sample
tables, kept in the unreduced form the builder yields. -/
def sample_table : List RangeRow :=
  range_values.map (make_range_row (calculate_miles_per_fuel 7 3 5 4 2).1
    (calculate_miles_per_fuel 7 3 5 4 2).2 100 50)

/-- The full builder output on the sample tables: `"Diesel"` is skipped
(no efficiency entry), `"A"` is processed. -/
def sample_output : List (String × List RangeRow) := [("A", sample_table)]

/-! ## The claims -/

/-- C1: for all inputs, the mileage model returns exactly the pair
`(milesPerKg, milesPerM3)` with
`milesPerKg = (mpgde / (mD / 264.172)) * eF / eD` and
`milesPerM3 = milesPerKg * mF`. -/
theorem claim_C1 (mpgde eF mF eD mD : ℚ) :
    calculate_miles_per_fuel mpgde eF mF eD mD =
      (mpgde / (mD / GALLONS_PER_M3) * eF / eD,
        mpgde / (mD / GALLONS_PER_M3) * eF / eD * mF) := rfl

/-- C6: with the candidate fuel's densities equal to diesel's (fuel used as
its own reference), the mileage model reduces to
`(efficiencyRating * 264.172 / massDensityDiesel, efficiencyRating * 264.172)`
for every positive efficiency rating and positive diesel densities. -/
theorem claim_C6 (mpgde eD mD : ℚ) (h1 : 0 < mpgde) (h2 : 0 < eD) (h3 : 0 < mD) :
    calculate_miles_per_fuel mpgde eD mD eD mD =
      (mpgde * GALLONS_PER_M3 / mD, mpgde * GALLONS_PER_M3) := by
  unfold calculate_miles_per_fuel
  rw [Prod.mk.injEq]
  constructor
  · field_simp
    ring
  · field_simp
    ring

/-- Witness for C6 at `mpgde = 7`, `eD = 4`, `mD = 2`. -/
theorem claim_C6_witness :
    (0:ℚ) < 7 ∧ (0:ℚ) < 4 ∧ (0:ℚ) < 2 ∧
      calculate_miles_per_fuel 7 4 2 4 2 =
        (7 * GALLONS_PER_M3 / 2, 7 * GALLONS_PER_M3) :=
  ⟨by decide, by decide, by decide, claim_C6 7 4 2 (by decide) (by decide) (by decide)⟩

/-- C8: the range-table builder is deterministic — equal input tables give
equal output mappings (in this embedding every derived quantity is a pure
function of the three tables, and the tables themselves are immutable
values, so inputs cannot be mutated). -/
theorem claim_C8 (t1 t2 e1 e2 f1 f2 : DataFrame)
    (ht : t1 = t2) (he : e1 = e2) (hf : f1 = f2) :
    create_range_vs_fuel_ratio_dfs t1 e1 f1 = create_range_vs_fuel_ratio_dfs t2 e2 f2 := by
  rw [ht, he, hf]

/-- Witness for C8 on the sample tables. -/
theorem claim_C8_witness :
    sample_truck_info = sample_truck_info ∧
    sample_truck_fuel_info = sample_truck_fuel_info ∧
    sample_fuel_info = sample_fuel_info ∧
      create_range_vs_fuel_ratio_dfs sample_truck_info sample_truck_fuel_info sample_fuel_info =
        create_range_vs_fuel_ratio_dfs sample_truck_info sample_truck_fuel_info sample_fuel_info :=
  ⟨rfl, rfl, rfl,
    claim_C8 sample_truck_info sample_truck_info sample_truck_fuel_info
      sample_truck_fuel_info sample_fuel_info sample_fuel_info rfl rfl rfl⟩

/-- C9: with all inputs positive, every divisor appearing in the mileage
model and in the row builder is nonzero, and every entry of a derived row is
a well-defined positive rational. -/
theorem claim_C9 (mpgde eF mF eD mD gvw dv : ℚ)
    (hm : 0 < mpgde) (heF : 0 < eF) (hmF : 0 < mF) (heD : 0 < eD) (hmD : 0 < mD)
    (hg : 0 < gvw) (hd : 0 < dv) :
    mD / GALLONS_PER_M3 ≠ 0 ∧ eD ≠ 0 ∧
    (calculate_miles_per_fuel mpgde eF mF eD mD).1 ≠ 0 ∧
    (calculate_miles_per_fuel mpgde eF mF eD mD).2 ≠ 0 ∧
    gvw ≠ 0 ∧ dv ≠ 0 ∧
    ∀ r ∈ range_values,
      0 < (make_range_row (calculate_miles_per_fuel mpgde eF mF eD mD).1
          (calculate_miles_per_fuel mpgde eF mF eD mD).2 gvw dv r).fuel_mass ∧
      0 < (make_range_row (calculate_miles_per_fuel mpgde eF mF eD mD).1
          (calculate_miles_per_fuel mpgde eF mF eD mD).2 gvw dv r).fuel_mass_percentage ∧
      0 < (make_range_row (calculate_miles_per_fuel mpgde eF mF eD mD).1
          (calculate_miles_per_fuel mpgde eF mF eD mD).2 gvw dv r).fuel_volume ∧
      0 < (make_range_row (calculate_miles_per_fuel mpgde eF mF eD mD).1
          (calculate_miles_per_fuel mpgde eF mF eD mD).2 gvw dv r).fuel_volume_percentage := by
  obtain ⟨h1, h2⟩ := calculate_miles_per_fuel_pos mpgde eF mF eD mD hm heF hmF heD hmD
  refine ⟨(div_pos hmD GALLONS_PER_M3_pos).ne', heD.ne', h1.ne', h2.ne',
    hg.ne', hd.ne', ?_⟩
  intro r hr
  have hr0 : 0 < r := by fin_cases hr <;> norm_num
  refine ⟨?_, ?_, ?_, ?_⟩
  · rw [make_range_row_fuel_mass]
    exact div_pos hr0 h1
  · rw [make_range_row_fuel_mass_percentage]
    exact mul_pos (div_pos (div_pos hr0 h1) hg) (by norm_num)
  · rw [make_range_row_fuel_volume]
    exact div_pos hr0 h2
  · rw [make_range_row_fuel_volume_percentage]
    exact mul_pos (div_pos (div_pos hr0 h2) hd) (by norm_num)

/-- Witness for C9 at `mpgde = 7`, `eF = 3`, `mF = 5`, `eD = 4`, `mD = 2`,
`gvw = 100`, `dv = 50`. -/
theorem claim_C9_witness :
    (0:ℚ) < 7 ∧ (0:ℚ) < 3 ∧ (0:ℚ) < 5 ∧ (0:ℚ) < 4 ∧ (0:ℚ) < 2 ∧
    (0:ℚ) < 100 ∧ (0:ℚ) < 50 ∧
    ((2:ℚ) / GALLONS_PER_M3 ≠ 0 ∧ (4:ℚ) ≠ 0 ∧
    (calculate_miles_per_fuel 7 3 5 4 2).1 ≠ 0 ∧
    (calculate_miles_per_fuel 7 3 5 4 2).2 ≠ 0 ∧
    (100:ℚ) ≠ 0 ∧ (50:ℚ) ≠ 0 ∧
    ∀ r ∈ range_values,
      0 < (make_range_row (calculate_miles_per_fuel 7 3 5 4 2).1
          (calculate_miles_per_fuel 7 3 5 4 2).2 100 50 r).fuel_mass ∧
      0 < (make_range_row (calculate_miles_per_fuel 7 3 5 4 2).1
          (calculate_miles_per_fuel 7 3 5 4 2).2 100 50 r).fuel_mass_percentage ∧
      0 < (make_range_row (calculate_miles_per_fuel 7 3 5 4 2).1
          (calculate_miles_per_fuel 7 3 5 4 2).2 100 50 r).fuel_volume ∧
      0 < (make_range_row (calculate_miles_per_fuel 7 3 5 4 2).1
          (calculate_miles_per_fuel 7 3 5 4 2).2 100 50 r).fuel_volume_percentage) :=
  ⟨by decide, by decide, by decide, by decide, by decide, by decide, by decide,
    claim_C9 7 3 5 4 2 100 50 (by decide) (by decide) (by decide) (by decide)
      (by decide) (by decide) (by decide)⟩

/-- C2: in every row of every fuel's derived table, the required fuel mass
times the fuel's miles-per-kg equals the row's target range, and the required
fuel volume times the fuel's miles-per-m3 equals the row's target range
(round-trip of the division used to build the row; the spec's global
precondition that the table entries are positive is taken as hypotheses). -/
theorem claim_C2 (ti tf fi : DataFrame) (out : List (String × List RangeRow))
    (fuel : String) (tbl : List RangeRow) (mpgde eF mF eD mD : ℚ)
    (hout : create_range_vs_fuel_ratio_dfs ti tf fi = .ok out)
    (hmem : (fuel, tbl) ∈ out)
    (h1 : get_mpgde fuel tf = some mpgde)
    (h2 : fi.loc fuel "Energy Density (MJ / kg)" = some eF)
    (h3 : fi.loc fuel "Mass Density (kg / m^3)" = some mF)
    (h4 : fi.loc "Diesel" "Energy Density (MJ / kg)" = some eD)
    (h5 : fi.loc "Diesel" "Mass Density (kg / m^3)" = some mD)
    (hm : 0 < mpgde) (heF : 0 < eF) (hmF : 0 < mF) (heD : 0 < eD) (hmD : 0 < mD) :
    ∀ row ∈ tbl,
      row.fuel_mass * (calculate_miles_per_fuel mpgde eF mF eD mD).1 =
        row.truck_range ∧
      row.fuel_volume * (calculate_miles_per_fuel mpgde eF mF eD mD).2 =
        row.truck_range := by
  obtain ⟨gvw, dv, mpgde2, eF2, mF2, eD2, mD2, hg, hd, h1', h2', h3', h4', h5', htbl⟩ :=
    create_ok_table_shape hout hmem
  rw [h1] at h1'
  obtain rfl := Option.some.inj h1'
  rw [h2] at h2'
  obtain rfl := Option.some.inj h2'
  rw [h3] at h3'
  obtain rfl := Option.some.inj h3'
  rw [h4] at h4'
  obtain rfl := Option.some.inj h4'
  rw [h5] at h5'
  obtain rfl := Option.some.inj h5'
  obtain ⟨hk, hv⟩ := calculate_miles_per_fuel_pos mpgde eF mF eD mD hm heF hmF heD hmD
  subst htbl
  intro row hrow
  obtain ⟨r, hr, rfl⟩ := List.mem_map.mp hrow
  constructor
  · rw [make_range_row_fuel_mass, make_range_row_truck_range]
    exact div_mul_cancel₀ r hk.ne'
  · rw [make_range_row_fuel_volume, make_range_row_truck_range]
    exact div_mul_cancel₀ r hv.ne'

/-- Witness for C2 on the sample tables. -/
theorem claim_C2_witness :
    create_range_vs_fuel_ratio_dfs sample_truck_info sample_truck_fuel_info
      sample_fuel_info = .ok sample_output ∧
    ("A", sample_table) ∈ sample_output ∧
    get_mpgde "A" sample_truck_fuel_info = some 7 ∧
    (0:ℚ) < 7 ∧ (0:ℚ) < 3 ∧ (0:ℚ) < 5 ∧ (0:ℚ) < 4 ∧ (0:ℚ) < 2 ∧
    ∀ row ∈ sample_table,
      row.fuel_mass * (calculate_miles_per_fuel 7 3 5 4 2).1 = row.truck_range ∧
      row.fuel_volume * (calculate_miles_per_fuel 7 3 5 4 2).2 = row.truck_range :=
  ⟨rfl, by simp [sample_output], rfl,
    by decide, by decide, by decide, by decide, by decide,
    claim_C2 sample_truck_info sample_truck_fuel_info sample_fuel_info
      sample_output "A" sample_table 7 3 5 4 2 rfl (by simp [sample_output])
      rfl rfl rfl rfl rfl (by decide) (by decide) (by decide) (by decide) (by decide)⟩

/-- C3: every fuel's derived table has exactly 10 rows and its
`Truck Range (miles)` column is exactly `[100, 200, ..., 1000]` ascending. -/
theorem claim_C3 (ti tf fi : DataFrame) (out : List (String × List RangeRow))
    (fuel : String) (tbl : List RangeRow)
    (hout : create_range_vs_fuel_ratio_dfs ti tf fi = .ok out)
    (hmem : (fuel, tbl) ∈ out) :
    tbl.length = 10 ∧
      tbl.map RangeRow.truck_range =
        [100, 200, 300, 400, 500, 600, 700, 800, 900, 1000] := by
  obtain ⟨gvw, dv, mpgde, eF, mF, eD, mD, _, _, _, _, _, _, _, htbl⟩ :=
    create_ok_table_shape hout hmem
  subst htbl
  constructor
  · rw [List.length_map]
    rfl
  · rw [List.map_map]
    rfl

/-- Witness for C3 on the sample tables. -/
theorem claim_C3_witness :
    create_range_vs_fuel_ratio_dfs sample_truck_info sample_truck_fuel_info
      sample_fuel_info = .ok sample_output ∧
    ("A", sample_table) ∈ sample_output ∧
    (sample_table.length = 10 ∧
      sample_table.map RangeRow.truck_range =
        [100, 200, 300, 400, 500, 600, 700, 800, 900, 1000]) :=
  ⟨rfl, by simp [sample_output],
    claim_C3 sample_truck_info sample_truck_fuel_info sample_fuel_info
      sample_output "A" sample_table rfl (by simp [sample_output])⟩

/-- C4: a fuel name present in the fuel-property table but absent from the
efficiency table gets no value from `get_mpgde` (caught `KeyError`, `none`
instead of raising) and does not appear as a key of the output mapping; the
remaining fuels are still processed (the run still returns a mapping). -/
theorem claim_C4 (ti tf fi : DataFrame) (out : List (String × List RangeRow))
    (fuel : String) (hin : fuel ∈ fi.index)
    (habs : lookupRow fuel tf.rows = none)
    (hout : create_range_vs_fuel_ratio_dfs ti tf fi = .ok out) :
    get_mpgde fuel tf = none ∧ fuel ∉ out.map Prod.fst := by
  have hnone : get_mpgde fuel tf = none := by
    unfold get_mpgde DataFrame.loc
    rw [habs]
    rfl
  refine ⟨hnone, ?_⟩
  obtain ⟨gvw, dv, hg, hd, hb⟩ := create_ok_inversion hout
  exact build_tables_not_mem_key (process_fuel_ok_none_iff.mpr hnone) _ out hb

/-- Witness for C4: on the sample tables, `"Diesel"` is listed in the
fuel-property table but has no efficiency entry, gets skipped, and the run
still produces the table for `"A"`. -/
theorem claim_C4_witness :
    ("Diesel" : String) ∈ sample_fuel_info.index ∧
    lookupRow "Diesel" sample_truck_fuel_info.rows = none ∧
    create_range_vs_fuel_ratio_dfs sample_truck_info sample_truck_fuel_info
      sample_fuel_info = .ok sample_output ∧
    (get_mpgde "Diesel" sample_truck_fuel_info = none ∧
      "Diesel" ∉ sample_output.map Prod.fst) :=
  ⟨by decide, rfl, rfl,
    claim_C4 sample_truck_info sample_truck_fuel_info sample_fuel_info
      sample_output "Diesel" (by decide) rfl rfl⟩

/-- C5: in every row of every fuel's derived table, the mass-percentage
column equals `100 * fuel_mass / max_gvw` and the volume-percentage column
equals `100 * fuel_volume / dry_van_volume`. -/
theorem claim_C5 (ti tf fi : DataFrame) (out : List (String × List RangeRow))
    (fuel : String) (tbl : List RangeRow) (gvw dv : ℚ)
    (hout : create_range_vs_fuel_ratio_dfs ti tf fi = .ok out)
    (hmem : (fuel, tbl) ∈ out)
    (hg : ti.loc "Max Gross Vehicle Weight (kg)" "Value" = some gvw)
    (hd : ti.loc "Dry Van Volume (m^3)" "Value" = some dv) :
    ∀ row ∈ tbl,
      row.fuel_mass_percentage = 100 * row.fuel_mass / gvw ∧
      row.fuel_volume_percentage = 100 * row.fuel_volume / dv := by
  obtain ⟨gvw2, dv2, mpgde, eF, mF, eD, mD, hg', hd', _, _, _, _, _, htbl⟩ :=
    create_ok_table_shape hout hmem
  rw [hg] at hg'
  obtain rfl := Option.some.inj hg'
  rw [hd] at hd'
  obtain rfl := Option.some.inj hd'
  subst htbl
  intro row hrow
  obtain ⟨r, hr, rfl⟩ := List.mem_map.mp hrow
  constructor
  · rw [make_range_row_fuel_mass_percentage, make_range_row_fuel_mass]
    ring
  · rw [make_range_row_fuel_volume_percentage, make_range_row_fuel_volume]
    ring

/-- Witness for C5 on the sample tables. -/
theorem claim_C5_witness :
    create_range_vs_fuel_ratio_dfs sample_truck_info sample_truck_fuel_info
      sample_fuel_info = .ok sample_output ∧
    ("A", sample_table) ∈ sample_output ∧
    sample_truck_info.loc "Max Gross Vehicle Weight (kg)" "Value" = some 100 ∧
    sample_truck_info.loc "Dry Van Volume (m^3)" "Value" = some 50 ∧
    ∀ row ∈ sample_table,
      row.fuel_mass_percentage = 100 * row.fuel_mass / 100 ∧
      row.fuel_volume_percentage = 100 * row.fuel_volume / 50 :=
  ⟨rfl, by simp [sample_output], rfl, rfl,
    claim_C5 sample_truck_info sample_truck_fuel_info sample_fuel_info
      sample_output "A" sample_table 100 50 rfl (by simp [sample_output]) rfl rfl⟩

/-- An efficiency table whose (only) fuel row has no `MPGDE` column: the
row label `"A"` exists, so only the column lookup fails. -/
def bad_truck_fuel_info : DataFrame := ⟨[("A", [("Other", 7)])]⟩

/-- Counterexample to C7 as stated: a missing `MPGDE` column is NOT a fatal
lookup failure.  The row `"A"` is present in the efficiency table but the
`MPGDE` column is absent; `get_mpgde` catches this `KeyError` exactly like a
missing fuel row, every fuel is skipped, and the run completes normally with
an (empty) mapping instead of terminating. -/
theorem claim_C7_counterexample :
    lookupRow "A" bad_truck_fuel_info.rows = some [("Other", 7)] ∧
    bad_truck_fuel_info.loc "A" "MPGDE" = none ∧
    get_mpgde "A" bad_truck_fuel_info = none ∧
    create_range_vs_fuel_ratio_dfs sample_truck_info bad_truck_fuel_info
      sample_fuel_info = .ok [] :=
  ⟨rfl, rfl, rfl, rfl⟩

/-- C7 (amended): a successful run certifies that both truck-capacity
lookups succeeded and that, for every fuel of the property table, either the
`get_mpgde` lookup failed recoverably (fuel skipped and excluded — this
covers BOTH a missing fuel row and a missing `MPGDE` column, since the
`try/except KeyError` guards the whole `.loc` access) or all four property
lookups succeeded.  Contrapositively, absence of any expected key outside
`get_mpgde`'s guarded lookup is an unrecovered fatal failure: the run cannot
return a mapping. -/
theorem claim_C7_amended (ti tf fi : DataFrame)
    (out : List (String × List RangeRow))
    (hout : create_range_vs_fuel_ratio_dfs ti tf fi = .ok out) :
    (∃ gvw, ti.loc "Max Gross Vehicle Weight (kg)" "Value" = some gvw) ∧
    (∃ dv, ti.loc "Dry Van Volume (m^3)" "Value" = some dv) ∧
    ∀ fuel ∈ fi.index,
      (get_mpgde fuel tf = none ∧ fuel ∉ out.map Prod.fst) ∨
      (∃ mpgde eF mF eD mD,
        get_mpgde fuel tf = some mpgde ∧
        fi.loc fuel "Energy Density (MJ / kg)" = some eF ∧
        fi.loc fuel "Mass Density (kg / m^3)" = some mF ∧
        fi.loc "Diesel" "Energy Density (MJ / kg)" = some eD ∧
        fi.loc "Diesel" "Mass Density (kg / m^3)" = some mD) := by
  obtain ⟨gvw, dv, hg, hd, hb⟩ := create_ok_inversion hout
  refine ⟨⟨gvw, hg⟩, ⟨dv, hd⟩, ?_⟩
  intro fuel hin
  rcases build_tables_ok_of_mem _ out fuel hb hin with hskip | ⟨tbl, hsome⟩
  · exact Or.inl ⟨process_fuel_ok_none_iff.mp hskip,
      build_tables_not_mem_key hskip _ out hb⟩
  · obtain ⟨mpgde, eF, mF, eD, mD, h1, h2, h3, h4, h5, _⟩ :=
      process_fuel_ok_some hsome
    exact Or.inr ⟨mpgde, eF, mF, eD, mD, h1, h2, h3, h4, h5⟩

/-- Witness for the amended C7 on the sample tables. -/
theorem claim_C7_witness :
    create_range_vs_fuel_ratio_dfs sample_truck_info sample_truck_fuel_info
      sample_fuel_info = .ok sample_output ∧
    ((∃ gvw, sample_truck_info.loc "Max Gross Vehicle Weight (kg)" "Value" = some gvw) ∧
    (∃ dv, sample_truck_info.loc "Dry Van Volume (m^3)" "Value" = some dv) ∧
    ∀ fuel ∈ sample_fuel_info.index,
      (get_mpgde fuel sample_truck_fuel_info = none ∧
        fuel ∉ sample_output.map Prod.fst) ∨
      (∃ mpgde eF mF eD mD,
        get_mpgde fuel sample_truck_fuel_info = some mpgde ∧
        sample_fuel_info.loc fuel "Energy Density (MJ / kg)" = some eF ∧
        sample_fuel_info.loc fuel "Mass Density (kg / m^3)" = some mF ∧
        sample_fuel_info.loc "Diesel" "Energy Density (MJ / kg)" = some eD ∧
        sample_fuel_info.loc "Diesel" "Mass Density (kg / m^3)" = some mD)) :=
  ⟨rfl, claim_C7_amended sample_truck_info sample_truck_fuel_info
    sample_fuel_info sample_output rfl⟩

/-- C10: for a fuel with positive mileage constants and positive truck
capacities, each of the four derived columns is strictly increasing down the
rows of that fuel's table. -/
theorem claim_C10 (ti tf fi : DataFrame) (out : List (String × List RangeRow))
    (fuel : String) (tbl : List RangeRow) (mpgde eF mF eD mD gvw dv : ℚ)
    (hout : create_range_vs_fuel_ratio_dfs ti tf fi = .ok out)
    (hmem : (fuel, tbl) ∈ out)
    (h1 : get_mpgde fuel tf = some mpgde)
    (h2 : fi.loc fuel "Energy Density (MJ / kg)" = some eF)
    (h3 : fi.loc fuel "Mass Density (kg / m^3)" = some mF)
    (h4 : fi.loc "Diesel" "Energy Density (MJ / kg)" = some eD)
    (h5 : fi.loc "Diesel" "Mass Density (kg / m^3)" = some mD)
    (hg : ti.loc "Max Gross Vehicle Weight (kg)" "Value" = some gvw)
    (hd : ti.loc "Dry Van Volume (m^3)" "Value" = some dv)
    (hm : 0 < mpgde) (heF : 0 < eF) (hmF : 0 < mF) (heD : 0 < eD) (hmD : 0 < mD)
    (hgp : 0 < gvw) (hdp : 0 < dv) :
    (tbl.map RangeRow.fuel_mass).Pairwise (· < ·) ∧
    (tbl.map RangeRow.fuel_mass_percentage).Pairwise (· < ·) ∧
    (tbl.map RangeRow.fuel_volume).Pairwise (· < ·) ∧
    (tbl.map RangeRow.fuel_volume_percentage).Pairwise (· < ·) := by
  obtain ⟨gvw2, dv2, mpgde2, eF2, mF2, eD2, mD2, hg', hd', h1', h2', h3', h4', h5', htbl⟩ :=
    create_ok_table_shape hout hmem
  rw [hg] at hg'
  obtain rfl := Option.some.inj hg'
  rw [hd] at hd'
  obtain rfl := Option.some.inj hd'
  rw [h1] at h1'
  obtain rfl := Option.some.inj h1'
  rw [h2] at h2'
  obtain rfl := Option.some.inj h2'
  rw [h3] at h3'
  obtain rfl := Option.some.inj h3'
  rw [h4] at h4'
  obtain rfl := Option.some.inj h4'
  rw [h5] at h5'
  obtain rfl := Option.some.inj h5'
  obtain ⟨hk, hv⟩ := calculate_miles_per_fuel_pos mpgde eF mF eD mD hm heF hmF heD hmD
  subst htbl
  have hbase : range_values.Pairwise (fun a b : ℚ => a < b) := by decide
  refine ⟨?_, ?_, ?_, ?_⟩ <;>
    rw [List.map_map, List.pairwise_map]
  · refine hbase.imp (fun hab => ?_)
    simp only [Function.comp_apply, make_range_row_fuel_mass]
    exact (div_lt_div_iff_of_pos_right hk).mpr hab
  · refine hbase.imp (fun hab => ?_)
    simp only [Function.comp_apply, make_range_row_fuel_mass_percentage]
    exact mul_lt_mul_of_pos_right
      ((div_lt_div_iff_of_pos_right hgp).mpr
        ((div_lt_div_iff_of_pos_right hk).mpr hab)) (by norm_num)
  · refine hbase.imp (fun hab => ?_)
    simp only [Function.comp_apply, make_range_row_fuel_volume]
    exact (div_lt_div_iff_of_pos_right hv).mpr hab
  · refine hbase.imp (fun hab => ?_)
    simp only [Function.comp_apply, make_range_row_fuel_volume_percentage]
    exact mul_lt_mul_of_pos_right
      ((div_lt_div_iff_of_pos_right hdp).mpr
        ((div_lt_div_iff_of_pos_right hv).mpr hab)) (by norm_num)

/-- Witness for C10 on the sample tables. -/
theorem claim_C10_witness :
    create_range_vs_fuel_ratio_dfs sample_truck_info sample_truck_fuel_info
      sample_fuel_info = .ok sample_output ∧
    ("A", sample_table) ∈ sample_output ∧
    (0:ℚ) < 7 ∧ (0:ℚ) < 3 ∧ (0:ℚ) < 5 ∧ (0:ℚ) < 4 ∧ (0:ℚ) < 2 ∧
    (0:ℚ) < 100 ∧ (0:ℚ) < 50 ∧
    ((sample_table.map RangeRow.fuel_mass).Pairwise (· < ·) ∧
    (sample_table.map RangeRow.fuel_mass_percentage).Pairwise (· < ·) ∧
    (sample_table.map RangeRow.fuel_volume).Pairwise (· < ·) ∧
    (sample_table.map RangeRow.fuel_volume_percentage).Pairwise (· < ·)) :=
  ⟨rfl, by simp [sample_output], by decide, by decide, by decide, by decide,
    by decide, by decide, by decide,
    claim_C10 sample_truck_info sample_truck_fuel_info sample_fuel_info
      sample_output "A" sample_table 7 3 5 4 2 100 50 rfl
      (by simp [sample_output]) rfl rfl rfl rfl rfl rfl rfl
      (by decide) (by decide) (by decide) (by decide) (by decide)
      (by decide) (by decide)⟩

end PlotRange
